import Mathlib

/-!
# Verification of the FocusMotion Pebble sensor-streaming engine

A shallow embedding of `src/c/focusmotion.c`: the connection/session state
machine, the sample buffer, the send cycle (`send_data`), the resend queue,
the transport-failure handler, the inbound dispatcher and the liveness check.

Modelling conventions:
* C global state becomes the structure `FmState`; every C function that
  mutates globals becomes a Lean function `FmState → FmState × List Output`,
  where `Output` records the messages handed to the transport and the
  client-callback invocations (observable effects).
* The transport (`app_message_outbox_begin` / `app_message_outbox_send`) is an
  external collaborator; its per-call results are supplied as a `Transport`
  record of booleans, and the free space left in the outbox dictionary when
  sensor data is written (`iter->end - iter->cursor` in the C) is supplied as
  `bytesAvail`.  The C computes `bytes_available -= 32` on an `int`; the model
  uses truncated `Nat` subtraction, which agrees whenever the transport grants
  at least 32 bytes (the platform outbox is opened with 3000 bytes).
* Machine integers are `Nat`; `uint8` reads/writes of the resend counter are
  taken mod 256 exactly where the C truncates.  `g_msg_flags` is an `int`
  bitmask, modelled as a `Nat` with the C's shift/or/and operations; the C
  `~mask` complement on a 32-bit int is modelled as `0xffffffff ^^^ mask`.
* An inbound dictionary is processed key by key in `focusmotion.c`'s
  `inbox_received_handler` loop, with each recognized key's case body
  self-contained; the model delivers one recognized key per `Event.inbox`
  (a multi-key dictionary is the sequential composition of such events).
-/

namespace FocusMotion


/-- Message keys, values as in the C enum (`KEYS_BEGIN = 0x464d0000 - 1`). -/
def KEY_START : Nat := 0x464d0000
def KEY_STOP : Nat := 0x464d0001
def KEY_SENSOR_DATA : Nat := 0x464d0002
def KEY_METADATA : Nat := 0x464d0003
def KEY_SENSOR_OFFSET : Nat := 0x464d0004
def KEY_CONNECT : Nat := 0x464d0005
def KEY_DISCONNECT : Nat := 0x464d0006
def KEY_RESEND : Nat := 0x464d0007
def KEY_SENSOR_RATE : Nat := 0x464d0008
def KEY_HEARTBEAT : Nat := 0x464d0009

def PROTOCOL_VERSION : Nat := 3
def ACCEL_BUF_SIZE : Nat := 500
def RESEND_BUF_SIZE : Nat := 10

/-- `set_msg_flag`: `g_msg_flags |= (1 << (key - KEY_START))`. -/
def set_msg_flag (key flags : Nat) : Nat := flags ||| (1 <<< (key - KEY_START))

/-- `clear_msg_flag`: `g_msg_flags &= ~(1 << (key - KEY_START))` on a 32-bit int. -/
def clear_msg_flag (key flags : Nat) : Nat :=
  flags &&& (0xffffffff ^^^ (1 <<< (key - KEY_START)))

/-- `get_msg_flag`: `g_msg_flags & (1 << (key - KEY_START))` as a truth value. -/
def get_msg_flag (key flags : Nat) : Bool :=
  decide (flags &&& (1 <<< (key - KEY_START)) ≠ 0)

/-- One accelerometer sample: three signed 16-bit axis readings
(`struct Sample { int16_t x, y, z; }`, 6 bytes packed). -/
structure Sample where
  x : Int
  y : Int
  z : Int
  deriving DecidableEq, Repr, Inhabited

/-- An outbound dictionary, one optional field per protocol key that
`send_data` can write.  A stored resend-queue entry (`MsgBuf`) is the same
data, since the C stores the serialized dictionary byte-for-byte. -/
structure OutMsg where
  connect : Option Nat := none
  metadata : Bool := false
  start : Bool := false
  heartbeat : Bool := false
  sensorOffset : Option Nat := none
  sensorRate : Option Nat := none
  sensorData : List Sample := []
  stop : Option (Nat × Nat) := none
  disconnect : Option Nat := none
  resend : Option Nat := none
  deriving DecidableEq, Repr, Inhabited

/-- Observable effects: a message handed to `app_message_outbox_send` (with
that call's result), and invocations of the client's registered handlers. -/
inductive Output where
  | sent (m : OutMsg) (ok : Bool)
  | recordingCb (b : Bool)
  | connectedCb (b : Bool)
  | outboxFailedCb
  | inboxCb
  | accelCb
  | btCb (b : Bool)
  deriving DecidableEq, Repr

/-- Results the transport collaborator returns during one `send_data` call:
`begin1`/`send1` for the resend (phase 1) outbox transaction, `begin2`/`send2`
for the fresh (phase 2) one, and `bytesAvail` the dictionary space remaining
when sensor data is about to be written. -/
structure Transport where
  begin1 : Bool := true
  send1 : Bool := true
  begin2 : Bool := true
  bytesAvail : Nat := 656
  send2 : Bool := true
  deriving DecidableEq, Repr, Inhabited

/-- Reason codes delivered to `outbox_failed_handler`; the C only ever
compares against `APP_MSG_SEND_REJECTED`. -/
inductive FailReason where
  | sendRejected
  | sendTimeout
  | busy
  | other
  deriving DecidableEq, Repr

/-- The engine's global state (the `g_` variables of `focusmotion.c`).
`resendBuf` holds the resend queue with the most recently queued entry first
(the C appends at index `g_resend_buf_count` and retries from the top). -/
structure FmState where
  recording : Bool
  connected : Bool
  connectionId : Nat
  accelBuf : List Sample
  resendBuf : List OutMsg
  samplesSent : Nat
  samplesMeasured : Nat
  msgFlags : Nat
  lastMessageTime : Nat
  appVersion : Nat
  samplingRate : Nat
  nextSamplingRate : Nat
  deriving DecidableEq, Repr

/-- State after `focusmotion_startup(app_version, ...)`. -/
def initState (appVersion : Nat) : FmState :=
  { recording := false
    connected := false
    connectionId := 1
    accelBuf := []
    resendBuf := []
    samplesSent := 0
    samplesMeasured := 0
    msgFlags := 0
    lastMessageTime := 0
    appVersion := appVersion
    samplingRate := 50
    nextSamplingRate := 50 }

/-- `samples_max` of `send_data` phase 2:
`(bytes_available - 32) / sizeof(Sample)` with `sizeof(Sample) = 6`. -/
def samplesMax (io : Transport) : Nat := (io.bytesAvail - 32) / 6

/-- `samples_to_send` of `send_data` phase 2: the buffered count, capped at
`samples_max`, and `0` when nothing is buffered. -/
def samplesToSend (io : Transport) (s : FmState) : Nat :=
  if 0 < s.accelBuf.length then min s.accelBuf.length (samplesMax io) else 0

/-- The fresh (phase 2) dictionary `send_data` assembles, field by field as in
lines 262-321 of the C source (connect/metadata, start, heartbeat, sensor
offset/rate/data, and stop/disconnect only when the drain takes the whole
buffer).  Values written fit their C integer widths given the engine's
invariants (`connectionId ≤ 1001`, `appVersion < 2^16`), except the
disconnect field, which the C truncates to `uint8`. -/
def buildMsg (io : Transport) (s : FmState) : OutMsg :=
  let k := samplesToSend io s
  { connect :=
      if get_msg_flag KEY_CONNECT s.msgFlags then
        some (if s.connected then s.connectionId <<< 16
              else (s.appVersion <<< 16) ||| PROTOCOL_VERSION)
      else none
    metadata := get_msg_flag KEY_CONNECT s.msgFlags && s.connected
    start := get_msg_flag KEY_START s.msgFlags
    heartbeat := get_msg_flag KEY_HEARTBEAT s.msgFlags
    sensorOffset := if 0 < s.accelBuf.length then some s.samplesSent else none
    sensorRate := if 0 < s.accelBuf.length then some s.samplingRate else none
    sensorData := s.accelBuf.take k
    stop :=
      if k = s.accelBuf.length ∧ get_msg_flag KEY_STOP s.msgFlags then
        some (s.samplesSent + k, s.samplesMeasured)
      else none
    disconnect :=
      if k = s.accelBuf.length ∧ get_msg_flag KEY_DISCONNECT s.msgFlags then
        some (s.connectionId % 256)
      else none
    resend := none }

/-- `new_msg_flags` of phase 2: `0` when the drain takes the whole buffer,
otherwise the old flags masked to the stop and disconnect bits (line 320). -/
def newMsgFlags (io : Transport) (s : FmState) : Nat :=
  if samplesToSend io s = s.accelBuf.length then 0
  else s.msgFlags &&&
    ((1 <<< (KEY_STOP - KEY_START)) ||| (1 <<< (KEY_DISCONNECT - KEY_START)))

/-- Phase 2 of `send_data` (lines 251-363): if samples are buffered or flags
are pending, begin an outbox transaction, build the dictionary, send it; on
success install `new_msg_flags`, drop the drained prefix and advance
`g_samples_sent`. -/
def sendFresh (io : Transport) (s : FmState) : FmState × List Output :=
  if 0 < s.accelBuf.length ∨ s.msgFlags ≠ 0 then
    if io.begin2 then
      let m := buildMsg io s
      let k := samplesToSend io s
      if io.send2 then
        let s1 := { s with msgFlags := newMsgFlags io s }
        let s2 :=
          if 0 < k then
            { s1 with accelBuf := s1.accelBuf.drop k
                      samplesSent := s1.samplesSent + k }
          else s1
        (s2, [Output.sent m true])
      else (s, [Output.sent m false])
    else (s, [])
  else (s, [])

/-- Re-wrapping of a queued dictionary in phase 1 (lines 206-235): every
non-resend field is copied, the resend counter is read as `uint8` (`0` stands
in for the absent-key case, where the C increments from `-1`), incremented,
and written back as `uint8`. -/
def rewrap (m : OutMsg) : OutMsg :=
  let r' : Nat :=
    match m.resend with
    | none => 0
    | some r => (r % 256 + 1) % 256
  { m with resend := some r' }

/-- `send_data` (lines 193-364): phase 1 retries the most recently queued
resend entry if there is one — aborting the whole call if its outbox begin
fails, and popping the entry only if its send succeeds — and then phase 2
runs unconditionally (there is no early return after a resend attempt). -/
def send_data (io : Transport) (s : FmState) : FmState × List Output :=
  match s.resendBuf with
  | [] => sendFresh io s
  | m :: rest =>
    if io.begin1 then
      let m' := rewrap m
      if io.send1 then
        let p := sendFresh io { s with resendBuf := rest }
        (p.1, Output.sent m' true :: p.2)
      else
        let p := sendFresh io s
        (p.1, Output.sent m' false :: p.2)
    else (s, [])

/-- `start_recording` (lines 412-436): if not already recording, install the
pending sampling rate, clear the buffer and both counters, arm start / clear
stop, run a send cycle, set the recording flag and notify the client. -/
def start_recording (io : Transport) (s : FmState) : FmState × List Output :=
  if s.recording then (s, [])
  else
    let s1 := { s with samplingRate := s.nextSamplingRate
                       accelBuf := []
                       samplesSent := 0
                       samplesMeasured := 0 }
    let s2 := { s1 with msgFlags :=
                  clear_msg_flag KEY_STOP (set_msg_flag KEY_START s1.msgFlags) }
    let p := send_data io s2
    ({ p.1 with recording := true }, p.2 ++ [Output.recordingCb true])

/-- `stop_recording` (lines 438-456): if recording, arm stop / clear start,
run a send cycle, clear the recording flag and notify the client. -/
def stop_recording (io : Transport) (s : FmState) : FmState × List Output :=
  if s.recording then
    let s1 := { s with msgFlags :=
                  clear_msg_flag KEY_START (set_msg_flag KEY_STOP s.msgFlags) }
    let p := send_data io s1
    ({ p.1 with recording := false }, p.2 ++ [Output.recordingCb false])
  else (s, [])

/-- `set_connected` (lines 463-495): a no-op unless the flag changes; on
connect, bump the session id with wraparound at 1000; on disconnect,
force-stop recording, clear the resend queue, the sample buffer, the flags
and the liveness timestamp, then arm exactly the disconnect flag. -/
def set_connected (b : Bool) (io : Transport) (s : FmState) : FmState × List Output :=
  if s.connected = b then (s, [])
  else if b then
    let cid := if 1000 < s.connectionId + 1 then 1 else s.connectionId + 1
    ({ s with connectionId := cid, connected := true }, [Output.connectedCb true])
  else
    let p := stop_recording io s
    let s2 := { p.1 with resendBuf := []
                         accelBuf := []
                         msgFlags := set_msg_flag KEY_DISCONNECT 0
                         lastMessageTime := 0
                         connected := false }
    (s2, p.2 ++ [Output.connectedCb false])

/-- `outbox_failed_handler` (lines 499-545): a send-rejected reason is ignored
outright; otherwise, while connected, a failed message whose `uint8` resend
counter exceeds 5 forces a disconnect, and any other failed message is queued
for resend when the queue has room (a full queue also forces a disconnect);
finally the client's handler is invoked. -/
def outbox_failed_handler (m : OutMsg) (reason : FailReason) (io : Transport)
    (s : FmState) : FmState × List Output :=
  if reason = FailReason.sendRejected then (s, [])
  else
    let p :=
      if s.connected then
        match m.resend with
        | some r =>
          if 5 < r % 256 then set_connected false io s
          else if s.resendBuf.length < RESEND_BUF_SIZE then
            ({ s with resendBuf := m :: s.resendBuf }, ([] : List Output))
          else set_connected false io s
        | none =>
          if s.resendBuf.length < RESEND_BUF_SIZE then
            ({ s with resendBuf := m :: s.resendBuf }, ([] : List Output))
          else set_connected false io s
      else (s, [])
    (p.1, p.2 ++ [Output.outboxFailedCb])

/-- One recognized key of an inbound dictionary. -/
inductive InKey where
  | start
  | stop
  | disconnect
  | connect (v : Nat)
  | other
  deriving DecidableEq, Repr

/-- The per-key dispatch of `inbox_received_handler` (lines 554-618); the
caller has already stamped `lastMessageTime`.  A connect value `v > 0` is
split into its low 16 bits (protocol version) and next 16 bits (app version)
and gated against the local constants; `v = 0` connects unconditionally.
An unrecognized key is forwarded to the client's handler. -/
def inbox_dispatch (k : InKey) (io : Transport) (s : FmState) :
    FmState × List Output :=
  match k with
  | InKey.start => start_recording io s
  | InKey.stop => stop_recording io s
  | InKey.disconnect => set_connected false io s
  | InKey.connect v =>
    if 0 < v then
      let protocolVersion := v &&& 0xffff
      let appVersion := (v >>> 16) &&& 0xffff
      if protocolVersion ≠ PROTOCOL_VERSION ∨ appVersion ≠ s.appVersion then
        let p := set_connected false io s
        ({ p.1 with msgFlags := set_msg_flag KEY_CONNECT p.1.msgFlags }, p.2)
      else
        let p := set_connected true io s
        ({ p.1 with msgFlags := set_msg_flag KEY_CONNECT p.1.msgFlags }, p.2)
    else set_connected true io s
  | InKey.other => (s, [Output.inboxCb])

/-- `accel_handler` (lines 621-669): while recording, count every incoming
sample as measured, append as many as fit in the remaining buffer capacity
(newest overflow dropped), then invoke the client's handler. -/
def accel_handler (samples : List Sample) (s : FmState) : FmState × List Output :=
  let s' :=
    if s.recording then
      let s1 := { s with samplesMeasured := s.samplesMeasured + samples.length }
      let nBuf := ACCEL_BUF_SIZE - s1.accelBuf.length
      let n := if nBuf < samples.length then nBuf else samples.length
      if 0 < n then { s1 with accelBuf := s1.accelBuf ++ samples.take n } else s1
    else s
  (s', [Output.accelCb])

/-- `data_timer_callback` (lines 390-406): run the send cycle, then the
liveness check — while connected and with an active timestamp, more than
8 seconds since the last inbound message forces a disconnect. -/
def data_timer_callback (now : Nat) (io1 io2 : Transport) (s : FmState) :
    FmState × List Output :=
  let p := send_data io1 s
  if 0 < p.1.lastMessageTime ∧ p.1.connected ∧ 8 < now - p.1.lastMessageTime then
    let q := set_connected false io2 p.1
    (q.1, p.2 ++ q.2)
  else p

/-- `bluetooth_handler` (lines 671-683): link loss forces a disconnect; the
client's handler is always invoked. -/
def bluetooth_handler (b : Bool) (io : Transport) (s : FmState) :
    FmState × List Output :=
  let p := if b then (s, ([] : List Output)) else set_connected false io s
  (p.1, p.2 ++ [Output.btCb b])

/-- The bounded best-effort drain loop of `focusmotion_shutdown`
(lines 826-832): up to five more send cycles while flags remain pending. -/
def shutdownLoop : Nat → List Transport → FmState → FmState × List Output
  | 0, _, s => (s, [])
  | n + 1, ios, s =>
    if s.msgFlags ≠ 0 then
      let p := send_data (ios.headD default) s
      let q := shutdownLoop n ios.tail p.1
      (q.1, p.2 ++ q.2)
    else (s, [])

/-- `focusmotion_shutdown` (lines 810-840): arm disconnect, stop recording,
run a send cycle, drain best-effort, then clear the resend queue. -/
def shutdown (ioA ioB : Transport) (ios : List Transport) (s : FmState) :
    FmState × List Output :=
  let s0 := { s with msgFlags := set_msg_flag KEY_DISCONNECT s.msgFlags }
  let p := stop_recording ioA s0
  let q := send_data ioB p.1
  let w := shutdownLoop 5 ios q.1
  ({ w.1 with resendBuf := [] }, p.2 ++ q.2 ++ w.2)

/-- The events that can reach the engine after startup, each carrying the
external inputs (clock reading, transport results, payload) it consumes. -/
inductive Event where
  | accel (samples : List Sample)
  | inbox (k : InKey) (now : Nat) (io : Transport)
  | tick (now : Nat) (io1 io2 : Transport)
  | outboxFailed (m : OutMsg) (reason : FailReason) (io : Transport)
  | bluetooth (b : Bool) (io : Transport)
  | userStartRecording (btUp : Bool) (io : Transport)
  | userStopRecording (io : Transport)
  | setSamplingRate (r : Nat)
  | shutdownEv (ioA ioB : Transport) (ios : List Transport)
  deriving Repr

/-- One engine step: the entry point each event maps to.  `Event.inbox`
stamps `g_last_message_time` before dispatching, as the C handler does;
`Event.userStartRecording` starts only when the bluetooth peek succeeds;
`Event.setSamplingRate` models `focusmotion_set_sampling_rate`. -/
def step : Event → FmState → FmState × List Output
  | Event.accel samples, s => accel_handler samples s
  | Event.inbox k now io, s => inbox_dispatch k io { s with lastMessageTime := now }
  | Event.tick now io1 io2, s => data_timer_callback now io1 io2 s
  | Event.outboxFailed m reason io, s => outbox_failed_handler m reason io s
  | Event.bluetooth b io, s => bluetooth_handler b io s
  | Event.userStartRecording btUp io, s =>
    if btUp then start_recording io s else (s, [])
  | Event.userStopRecording io, s => stop_recording io s
  | Event.setSamplingRate r, s =>
    let s1 := { s with nextSamplingRate := r }
    if s1.recording then (s1, []) else ({ s1 with samplingRate := r }, [])
  | Event.shutdownEv ioA ioB ios, s => shutdown ioA ioB ios s

/-- States the engine can be in after startup with a `uint16` app version. -/
inductive Reachable : FmState → Prop where
  | init (av : Nat) (hav : av < 65536) : Reachable (initState av)
  | step {s : FmState} (e : Event) (h : Reachable s) : Reachable (step e s).1

/-! ### Concrete scenarios

Fixed inputs used to run the engine on explicit data: a transport that
accepts the resend transaction but whose fresh sends do not go out, the
quiescent connected state reached by a bare `Connect(0)` handshake, and the
repeated-delivery-failure cycle (one timer tick whose resend attempt is
accepted by the outbox, followed by the asynchronous failure of exactly the
dictionary that was attempted). -/

/-- Transport results: both outbox begins succeed, the resend send is
accepted, a fresh send is not attempted successfully. -/
def ioT : Transport :=
  { begin1 := true, send1 := true, begin2 := true, bytesAvail := 0, send2 := false }

/-- The state after startup with app version 0 followed by a received
`Connect(0)` (bare reconnection handshake): connected, session id 2,
nothing buffered, nothing pending. -/
def connectedIdle : FmState :=
  (step (Event.inbox (InKey.connect 0) 0 ioT) (initState 0)).1

/-- First dictionary handed to `app_message_outbox_send` during a list of
engine outputs, if any. -/
def firstSent : List Output → Option OutMsg
  | [] => none
  | Output.sent m _ :: _ => some m
  | _ :: rest => firstSent rest

/-- One consecutive-delivery-failure round: a timer tick (whose phase-1
resend attempt the outbox accepts), followed by the asynchronous delivery
failure of the dictionary that tick attempted. -/
def failCycle (s : FmState) : FmState :=
  let p := step (Event.tick 5 ioT ioT) s
  match firstSent p.2 with
  | some m => (step (Event.outboxFailed m FailReason.other ioT) p.1).1
  | none => p.1

/-- The all-zero sample, used by concrete scenarios. -/
def zeroSample : Sample := { x := 0, y := 0, z := 0 }

/-- Startup state already switched to recording. -/
def recordingInit : FmState := { initState 0 with recording := true }

/-- Startup state already marked connected. -/
def connectedInit : FmState := { initState 0 with connected := true }

/-- A state with 20 buffered samples and a pending stop flag. -/
def stopPending20 : FmState :=
  { initState 0 with accelBuf := List.replicate 20 zeroSample
                     msgFlags := set_msg_flag KEY_STOP 0 }

/-- A transport granting a 92-byte dictionary budget (10 samples fit). -/
def ioSmall : Transport := { bytesAvail := 92 }

/-- The accounting invariant the engine maintains: the sent counter plus the
buffered count never exceeds the measured counter, and the heartbeat pending
flag is never set. -/
def Inv (s : FmState) : Prop :=
  s.samplesSent + s.accelBuf.length ≤ s.samplesMeasured
  ∧ get_msg_flag KEY_HEARTBEAT s.msgFlags = false

/-- A concrete run: connect, start recording, deliver three samples, then a
received Disconnect (which clears the buffer without resetting counters). -/
def sBad : FmState :=
  (step (Event.inbox InKey.disconnect 5 ioT)
    (step (Event.accel [zeroSample, zeroSample, zeroSample])
      (step (Event.inbox InKey.start 5 ioT)
        (step (Event.inbox (InKey.connect 0) 0 ioT) (initState 0)).1).1).1).1

/-- An idle connected session observed over consecutive timer ticks. -/
def tickRun : Nat → FmState
  | 0 => connectedIdle
  | n + 1 => (step (Event.tick 5 ioT ioT) (tickRun n)).1

/-- The quiescent connected session with one dictionary `m` sitting in the
resend queue: the state reached when a fresh message `m` has just failed
delivery once. -/
def idleWithQueue (m : OutMsg) : FmState :=
  { recording := false
    connected := true
    connectionId := 2
    accelBuf := []
    resendBuf := [m]
    samplesSent := 0
    samplesMeasured := 0
    msgFlags := 0
    lastMessageTime := 0
    appVersion := 0
    samplingRate := 50
    nextSamplingRate := 50 }

/-- A connected state with one queued resend entry and a pending start flag,
facing a fully permissive transport. -/
def sResendPending : FmState :=
  { connectedIdle with resendBuf := [({} : OutMsg)]
                       msgFlags := set_msg_flag KEY_START 0 }

/-- A transport whose every begin and send succeeds (the record defaults). -/
def ioAll : Transport := {}



/-! ## Flag-bitmask lemmas -/

lemma get_msg_flag_eq_testBit (k f : Nat) :
    get_msg_flag k f = f.testBit (k - KEY_START) := by
  unfold get_msg_flag
  rw [Nat.shiftLeft_eq, one_mul, Nat.and_two_pow]
  cases h : f.testBit (k - KEY_START) <;> simp [h]

lemma get_msg_flag_lor (k f g : Nat) :
    get_msg_flag k (f ||| g) = (get_msg_flag k f || get_msg_flag k g) := by
  simp [get_msg_flag_eq_testBit, Nat.testBit_lor]

lemma get_msg_flag_land (k f g : Nat) :
    get_msg_flag k (f &&& g) = (get_msg_flag k f && get_msg_flag k g) := by
  simp [get_msg_flag_eq_testBit, Nat.testBit_land]

lemma get_msg_flag_zero (k : Nat) : get_msg_flag k 0 = false := by
  simp [get_msg_flag]

lemma ne_zero_of_get_msg_flag {k f : Nat} (h : get_msg_flag k f = true) : f ≠ 0 := by
  intro h0
  rw [h0, get_msg_flag_zero] at h
  exact Bool.false_ne_true h

/-- `set_msg_flag` is an or with a fixed constant. -/
lemma set_msg_flag_eq (k f : Nat) :
    set_msg_flag k f = f ||| (1 <<< (k - KEY_START)) := rfl

lemma get_set_same (k f : Nat) (hk : get_msg_flag k (1 <<< (k - KEY_START)) = true) :
    get_msg_flag k (set_msg_flag k f) = true := by
  rw [set_msg_flag_eq, get_msg_flag_lor, hk, Bool.or_true]

lemma get_set_other (k k' f : Nat) (hk : get_msg_flag k (1 <<< (k' - KEY_START)) = false) :
    get_msg_flag k (set_msg_flag k' f) = get_msg_flag k f := by
  rw [set_msg_flag_eq, get_msg_flag_lor, hk, Bool.or_false]

lemma get_clear_other (k k' f : Nat)
    (hk : get_msg_flag k (0xffffffff ^^^ (1 <<< (k' - KEY_START))) = true) :
    get_msg_flag k (clear_msg_flag k' f) = get_msg_flag k f := by
  rw [clear_msg_flag, get_msg_flag_land, hk, Bool.and_true]

/-! ## Frame lemmas: which state fields each operation leaves alone -/

lemma sendFresh_frame (io : Transport) (s : FmState) :
    (sendFresh io s).1.recording = s.recording
    ∧ (sendFresh io s).1.connected = s.connected
    ∧ (sendFresh io s).1.connectionId = s.connectionId
    ∧ (sendFresh io s).1.samplesMeasured = s.samplesMeasured
    ∧ (sendFresh io s).1.lastMessageTime = s.lastMessageTime
    ∧ (sendFresh io s).1.appVersion = s.appVersion
    ∧ (sendFresh io s).1.resendBuf = s.resendBuf := by
  unfold sendFresh
  split_ifs <;> by_cases hk : 0 < samplesToSend io s <;> simp [hk]

lemma send_data_frame (io : Transport) (s : FmState) :
    (send_data io s).1.recording = s.recording
    ∧ (send_data io s).1.connected = s.connected
    ∧ (send_data io s).1.connectionId = s.connectionId
    ∧ (send_data io s).1.samplesMeasured = s.samplesMeasured
    ∧ (send_data io s).1.lastMessageTime = s.lastMessageTime
    ∧ (send_data io s).1.appVersion = s.appVersion := by
  unfold send_data
  cases hr : s.resendBuf with
  | nil => exact ⟨(sendFresh_frame io s).1, (sendFresh_frame io s).2.1,
      (sendFresh_frame io s).2.2.1, (sendFresh_frame io s).2.2.2.1,
      (sendFresh_frame io s).2.2.2.2.1, (sendFresh_frame io s).2.2.2.2.2.1⟩
  | cons m rest =>
    split_ifs with h1 h2 <;>
      simp [sendFresh_frame io { s with resendBuf := rest }, sendFresh_frame io s]

lemma stop_recording_recording (io : Transport) (s : FmState) :
    (stop_recording io s).1.recording = false := by
  unfold stop_recording
  split_ifs with h
  · simp
  · simpa using h

lemma stop_recording_frame (io : Transport) (s : FmState) :
    (stop_recording io s).1.connected = s.connected
    ∧ (stop_recording io s).1.connectionId = s.connectionId
    ∧ (stop_recording io s).1.samplesMeasured = s.samplesMeasured
    ∧ (stop_recording io s).1.lastMessageTime = s.lastMessageTime
    ∧ (stop_recording io s).1.appVersion = s.appVersion := by
  unfold stop_recording
  split_ifs with h
  · simp [send_data_frame]
  · simp



lemma set_connected_false_connected (io : Transport) (s : FmState) :
    (set_connected false io s).1.connected = false := by
  unfold set_connected
  split_ifs with h1 h2 <;> simp_all

lemma set_connected_true_connected (io : Transport) (s : FmState) :
    (set_connected true io s).1.connected = true := by
  unfold set_connected
  split_ifs with h1 h2 <;> simp_all

/-! ## C7: entering Disconnected from Connected cleans up everything and
arms exactly the disconnect flag -/

/-- C7: on every transition from connected to disconnected (`set_connected
(false)` on a connected state, the single function all disconnect causes
funnel through), recording is forced off, the sample buffer and the resend
queue are emptied, the liveness timestamp is reset to inactive, and the
pending-flag set afterwards is exactly the armed disconnect flag. -/
theorem connected_to_disconnected_cleanup (s : FmState) (io : Transport)
    (h : s.connected = true) :
    (set_connected false io s).1.recording = false
    ∧ (set_connected false io s).1.accelBuf = []
    ∧ (set_connected false io s).1.resendBuf = []
    ∧ (set_connected false io s).1.lastMessageTime = 0
    ∧ (set_connected false io s).1.msgFlags = set_msg_flag KEY_DISCONNECT 0
    ∧ (set_connected false io s).1.connected = false := by
  unfold set_connected
  rw [h]
  simp [stop_recording_recording]

/-- Witness for C7 at a concrete connected state. -/
theorem connected_to_disconnected_cleanup_witness :
    ({ initState 0 with connected := true } : FmState).connected = true
    ∧ ((set_connected false ioT { initState 0 with connected := true }).1.recording = false
       ∧ (set_connected false ioT { initState 0 with connected := true }).1.accelBuf = []
       ∧ (set_connected false ioT { initState 0 with connected := true }).1.resendBuf = []
       ∧ (set_connected false ioT { initState 0 with connected := true }).1.lastMessageTime = 0
       ∧ (set_connected false ioT { initState 0 with connected := true }).1.msgFlags
           = set_msg_flag KEY_DISCONNECT 0
       ∧ (set_connected false ioT { initState 0 with connected := true }).1.connected = false) :=
  ⟨rfl, connected_to_disconnected_cleanup { initState 0 with connected := true } ioT rfl⟩

/-! ## C9: requesting a disconnect while disconnected is a no-op -/

/-- C9: `set_connected(false)` on an already-disconnected state changes no
state field and invokes no handler. -/
theorem disconnect_idempotent (s : FmState) (io : Transport)
    (h : s.connected = false) :
    set_connected false io s = (s, []) := by
  simp [set_connected, h]

/-- Witness for C9 at the startup state, which is disconnected. -/
theorem disconnect_idempotent_witness :
    (initState 0).connected = false
    ∧ set_connected false ioT (initState 0) = (initState 0, []) :=
  ⟨rfl, disconnect_idempotent (initState 0) ioT rfl⟩

/-! ## C10: send-rejected failures and failures while disconnected -/

/-- C10: a delivery failure whose reason is the send-rejected code is ignored
outright — no requeue, no state change, not even the client's handler runs;
and any delivery failure arriving while disconnected changes no engine state
and is only forwarded to the client's handler. -/
theorem outbox_failed_rejected_or_disconnected (s : FmState) (m : OutMsg)
    (io : Transport) (reason : FailReason) :
    (reason = FailReason.sendRejected →
       outbox_failed_handler m reason io s = (s, []))
    ∧ (reason ≠ FailReason.sendRejected → s.connected = false →
       outbox_failed_handler m reason io s = (s, [Output.outboxFailedCb])) := by
  constructor
  · intro hr
    simp [outbox_failed_handler, hr]
  · intro hr hc
    simp [outbox_failed_handler, hr, hc]

/-- Witness for C10: both branches at concrete inputs. -/
theorem outbox_failed_rejected_or_disconnected_witness :
    outbox_failed_handler {} FailReason.sendRejected ioT (initState 0) = (initState 0, [])
    ∧ outbox_failed_handler {} FailReason.sendTimeout ioT (initState 0)
        = (initState 0, [Output.outboxFailedCb]) :=
  ⟨(outbox_failed_rejected_or_disconnected (initState 0) {} ioT FailReason.sendRejected).1 rfl,
   (outbox_failed_rejected_or_disconnected (initState 0) {} ioT FailReason.sendTimeout).2
     (by decide) rfl⟩

/-! ## C5: the connect version gate -/

/-- C5: a received Connect with nonzero value whose decoded protocol version
differs from `PROTOCOL_VERSION` or whose decoded app version differs from the
registered one leaves the session disconnected and arms the
connect-announcement flag; when both match the session becomes connected and
the flag is armed as an acknowledgement. -/
theorem connect_version_gate (s : FmState) (io : Transport) (v : Nat)
    (hv : 0 < v) :
    ((v &&& 0xffff ≠ PROTOCOL_VERSION ∨ (v >>> 16) &&& 0xffff ≠ s.appVersion) →
       (inbox_dispatch (InKey.connect v) io s).1.connected = false
       ∧ get_msg_flag KEY_CONNECT (inbox_dispatch (InKey.connect v) io s).1.msgFlags = true)
    ∧ ((v &&& 0xffff = PROTOCOL_VERSION ∧ (v >>> 16) &&& 0xffff = s.appVersion) →
       (inbox_dispatch (InKey.connect v) io s).1.connected = true
       ∧ get_msg_flag KEY_CONNECT (inbox_dispatch (InKey.connect v) io s).1.msgFlags = true) := by
  constructor
  · intro hmis
    simp only [inbox_dispatch]
    rw [if_pos hv, if_pos hmis]
    exact ⟨set_connected_false_connected io s,
      get_set_same KEY_CONNECT _ (by decide)⟩
  · intro hmatch
    simp only [inbox_dispatch]
    rw [if_pos hv, if_neg (by push_neg; exact hmatch)]
    exact ⟨set_connected_true_connected io s,
      get_set_same KEY_CONNECT _ (by decide)⟩

/-- Witness for C5: mismatched app version (7 against local 0) with matching
protocol version, and the fully matching value, both concrete. -/
theorem connect_version_gate_witness :
    (0 < (7 <<< 16) ||| 3
     ∧ (inbox_dispatch (InKey.connect ((7 <<< 16) ||| 3)) ioT (initState 0)).1.connected = false
     ∧ get_msg_flag KEY_CONNECT
         (inbox_dispatch (InKey.connect ((7 <<< 16) ||| 3)) ioT (initState 0)).1.msgFlags = true)
    ∧ ((inbox_dispatch (InKey.connect 3) ioT (initState 0)).1.connected = true
     ∧ get_msg_flag KEY_CONNECT
         (inbox_dispatch (InKey.connect 3) ioT (initState 0)).1.msgFlags = true) :=
  ⟨⟨by decide,
    (connect_version_gate (initState 0) ioT ((7 <<< 16) ||| 3) (by decide)).1
      (Or.inr (by decide))⟩,
   (connect_version_gate (initState 0) ioT 3 (by decide)).2 (by decide)⟩

/-! ## C6: overflow shedding in the accel handler -/

/-- C6: while recording, a delivery of incoming samples increments the
measured counter by the full incoming count, while the buffer accepts only
what fits in the remaining capacity, appending that prefix (so the excess
newest samples are dropped). -/
theorem accel_overflow_shedding (s : FmState) (samples : List Sample)
    (h : s.recording = true) :
    (accel_handler samples s).1.samplesMeasured = s.samplesMeasured + samples.length
    ∧ (accel_handler samples s).1.accelBuf
        = s.accelBuf ++ samples.take (min samples.length (ACCEL_BUF_SIZE - s.accelBuf.length))
    ∧ (accel_handler samples s).1.accelBuf.length
        = s.accelBuf.length + min samples.length (ACCEL_BUF_SIZE - s.accelBuf.length) := by
  unfold accel_handler
  rw [h]
  have hn : (if ACCEL_BUF_SIZE - s.accelBuf.length < samples.length then
      ACCEL_BUF_SIZE - s.accelBuf.length else samples.length)
      = min samples.length (ACCEL_BUF_SIZE - s.accelBuf.length) := by
    split_ifs with hlt <;> omega
  simp only [if_true, hn]
  split_ifs with h0
  · refine ⟨rfl, rfl, ?_⟩
    simp only [List.length_append, List.length_take]
    omega
  · have : min samples.length (ACCEL_BUF_SIZE - s.accelBuf.length) = 0 := by omega
    simp [this]

/-- Witness for C6, embodying the spec scenario: 700 samples pushed into an
empty 500-capacity buffer while recording. -/
theorem accel_overflow_shedding_witness :
    ({ initState 0 with recording := true } : FmState).recording = true
    ∧ ((accel_handler (List.replicate 700 { x := 0, y := 0, z := 0 })
          { initState 0 with recording := true }).1.samplesMeasured
        = ({ initState 0 with recording := true } : FmState).samplesMeasured
          + (List.replicate 700 ({ x := 0, y := 0, z := 0 } : Sample)).length
       ∧ (accel_handler (List.replicate 700 { x := 0, y := 0, z := 0 })
            { initState 0 with recording := true }).1.accelBuf
          = ({ initState 0 with recording := true } : FmState).accelBuf
            ++ (List.replicate 700 ({ x := 0, y := 0, z := 0 } : Sample)).take
                 (min (List.replicate 700 ({ x := 0, y := 0, z := 0 } : Sample)).length
                   (ACCEL_BUF_SIZE
                     - ({ initState 0 with recording := true } : FmState).accelBuf.length))
       ∧ (accel_handler (List.replicate 700 { x := 0, y := 0, z := 0 })
            { initState 0 with recording := true }).1.accelBuf.length
          = ({ initState 0 with recording := true } : FmState).accelBuf.length
            + min (List.replicate 700 ({ x := 0, y := 0, z := 0 } : Sample)).length
                (ACCEL_BUF_SIZE
                  - ({ initState 0 with recording := true } : FmState).accelBuf.length)) :=
  ⟨rfl, accel_overflow_shedding { initState 0 with recording := true }
    (List.replicate 700 { x := 0, y := 0, z := 0 }) rfl⟩


/-! ## C1: the partial-drain rule of the send cycle -/

lemma samplesToSend_le (io : Transport) (s : FmState) :
    samplesToSend io s ≤ s.accelBuf.length := by
  unfold samplesToSend
  split_ifs <;> omega

lemma samplesToSend_of_lt (io : Transport) (s : FmState)
    (hlt : samplesMax io < s.accelBuf.length) :
    samplesToSend io s = samplesMax io := by
  unfold samplesToSend
  rw [if_pos (by omega)]
  omega

lemma samplesToSend_of_le (io : Transport) (s : FmState)
    (hle : s.accelBuf.length ≤ samplesMax io) :
    samplesToSend io s = s.accelBuf.length := by
  unfold samplesToSend
  split_ifs <;> omega

lemma buildMsg_resendBuf_irrel (io : Transport) (s : FmState) (r : List OutMsg) :
    buildMsg io { s with resendBuf := r } = buildMsg io s := rfl

lemma rewrap_resend_some (m : OutMsg) : (rewrap m).resend ≠ none := by
  simp [rewrap]

/-- In a partial-drain cycle the assembled dictionary carries neither a stop
nor a disconnect field. -/
lemma buildMsg_deferred_no_stop (io : Transport) (s : FmState)
    (hlt : samplesMax io < s.accelBuf.length) :
    (buildMsg io s).stop = none ∧ (buildMsg io s).disconnect = none := by
  have hk : samplesToSend io s ≠ s.accelBuf.length := by
    rw [samplesToSend_of_lt io s hlt]
    omega
  unfold buildMsg
  simp [hk]

/-- In a full-drain cycle with the stop flag pending, the assembled dictionary
carries the stop pair `(sent + drained, measured)`. -/
lemma buildMsg_full_stop (io : Transport) (s : FmState)
    (hle : s.accelBuf.length ≤ samplesMax io)
    (hstop : get_msg_flag KEY_STOP s.msgFlags = true) :
    (buildMsg io s).stop = some (s.samplesSent + s.accelBuf.length, s.samplesMeasured) := by
  have hk := samplesToSend_of_le io s hle
  unfold buildMsg
  simp [hk, hstop]

/-- Every fresh dictionary a send cycle attempts is `buildMsg` of the cycle's
entry state (resend attempts are excluded by their resend field). -/
lemma mem_sendFresh_eq (io : Transport) (s : FmState) (m : OutMsg) (b : Bool)
    (hmem : Output.sent m b ∈ (sendFresh io s).2) :
    m = buildMsg io s := by
  unfold sendFresh at hmem
  split_ifs at hmem <;> simp_all

lemma mem_send_data_fresh (io : Transport) (s : FmState) (m : OutMsg) (b : Bool)
    (hmem : Output.sent m b ∈ (send_data io s).2) (hm : m.resend = none) :
    m = buildMsg io s := by
  cases hr : s.resendBuf with
  | nil =>
    simp only [send_data, hr] at hmem
    exact mem_sendFresh_eq io s m b hmem
  | cons mm rest =>
    simp only [send_data, hr] at hmem
    split_ifs at hmem with h1 h2
    · simp only [List.mem_cons] at hmem
      rcases hmem with heq | htl
      · have hmr : m = rewrap mm := (Output.sent.inj heq).1
        rw [hmr] at hm
        exact absurd hm (rewrap_resend_some mm)
      · rw [mem_sendFresh_eq io { s with resendBuf := rest } m b htl]
        exact buildMsg_resendBuf_irrel io s rest
    · simp only [List.mem_cons] at hmem
      rcases hmem with heq | htl
      · have hmr : m = rewrap mm := (Output.sent.inj heq).1
        rw [hmr] at hm
        exact absurd hm (rewrap_resend_some mm)
      · exact mem_sendFresh_eq io s m b htl
    · simp at hmem

lemma sendFresh_msgFlags (io : Transport) (s : FmState) :
    (sendFresh io s).1.msgFlags = s.msgFlags
    ∨ (sendFresh io s).1.msgFlags = newMsgFlags io s := by
  unfold sendFresh
  split_ifs <;> by_cases hk : 0 < samplesToSend io s <;> simp [hk]

lemma send_data_msgFlags (io : Transport) (s : FmState) :
    (send_data io s).1.msgFlags = s.msgFlags
    ∨ (send_data io s).1.msgFlags = newMsgFlags io s := by
  unfold send_data
  cases hr : s.resendBuf with
  | nil => exact sendFresh_msgFlags io s
  | cons mm rest =>
    split_ifs with h1 h2
    · exact sendFresh_msgFlags io { s with resendBuf := rest }
    · exact sendFresh_msgFlags io s
    · left; rfl

lemma sendFresh_attempts (io : Transport) (s : FmState)
    (hpend : 0 < s.accelBuf.length ∨ s.msgFlags ≠ 0) (hb : io.begin2 = true) :
    Output.sent (buildMsg io s) io.send2 ∈ (sendFresh io s).2 := by
  unfold sendFresh
  rw [if_pos hpend, if_pos hb]
  cases hs : io.send2 <;> simp [hs]

/-- C1: in every send cycle with the stop or disconnect flag pending,
if fewer buffered samples fit the remaining byte budget than are buffered,
the attempted fresh dictionary carries neither stop nor disconnect and both
pending flags survive the cycle; and if the whole buffer fits (or is empty),
a pending stop flag makes the cycle attempt a dictionary whose stop field is
exactly `(samples sent so far + this batch, samples measured)`. -/
theorem send_cycle_drain_deferral (s : FmState) (io : Transport)
    (_hflag : get_msg_flag KEY_STOP s.msgFlags = true
      ∨ get_msg_flag KEY_DISCONNECT s.msgFlags = true) :
    (samplesMax io < s.accelBuf.length →
      (∀ m b, Output.sent m b ∈ (send_data io s).2 → m.resend = none →
        m.stop = none ∧ m.disconnect = none)
      ∧ (get_msg_flag KEY_STOP s.msgFlags = true →
          get_msg_flag KEY_STOP (send_data io s).1.msgFlags = true)
      ∧ (get_msg_flag KEY_DISCONNECT s.msgFlags = true →
          get_msg_flag KEY_DISCONNECT (send_data io s).1.msgFlags = true))
    ∧ (s.accelBuf.length ≤ samplesMax io →
       get_msg_flag KEY_STOP s.msgFlags = true →
       io.begin2 = true → (s.resendBuf = [] ∨ io.begin1 = true) →
       Output.sent (buildMsg io s) io.send2 ∈ (send_data io s).2
       ∧ (buildMsg io s).stop
           = some (s.samplesSent + s.accelBuf.length, s.samplesMeasured)) := by
  constructor
  · intro hlt
    refine ⟨?_, ?_, ?_⟩
    · intro m b hmem hm
      rw [mem_send_data_fresh io s m b hmem hm]
      exact buildMsg_deferred_no_stop io s hlt
    · intro hstop
      rcases send_data_msgFlags io s with hf | hf
      · rw [hf]; exact hstop
      · rw [hf]
        unfold newMsgFlags
        rw [if_neg (by rw [samplesToSend_of_lt io s hlt]; omega)]
        rw [get_msg_flag_land, hstop]
        simp [(by decide :
          get_msg_flag KEY_STOP ((1 <<< (KEY_STOP - KEY_START))
            ||| (1 <<< (KEY_DISCONNECT - KEY_START))) = true)]
    · intro hdisc
      rcases send_data_msgFlags io s with hf | hf
      · rw [hf]; exact hdisc
      · rw [hf]
        unfold newMsgFlags
        rw [if_neg (by rw [samplesToSend_of_lt io s hlt]; omega)]
        rw [get_msg_flag_land, hdisc]
        simp [(by decide :
          get_msg_flag KEY_DISCONNECT ((1 <<< (KEY_STOP - KEY_START))
            ||| (1 <<< (KEY_DISCONNECT - KEY_START))) = true)]
  · intro hle hstop hb2 hph
    refine ⟨?_, buildMsg_full_stop io s hle hstop⟩
    have hpend : 0 < s.accelBuf.length ∨ s.msgFlags ≠ 0 :=
      Or.inr (ne_zero_of_get_msg_flag hstop)
    cases hr : s.resendBuf with
    | nil =>
      simp only [send_data, hr]
      exact sendFresh_attempts io s hpend hb2
    | cons mm rest =>
      have hb1 : io.begin1 = true := by
        rcases hph with h | h
        · rw [hr] at h; exact absurd h (by simp)
        · exact h
      simp only [send_data, hr]
      rw [if_pos hb1]
      split_ifs with hs1
      · refine List.mem_cons_of_mem _ ?_
        rw [← buildMsg_resendBuf_irrel io s rest]
        exact sendFresh_attempts io { s with resendBuf := rest } hpend hb2
      · exact List.mem_cons_of_mem _ (sendFresh_attempts io s hpend hb2)

/-- Witness for C1: a concrete cycle with 20 buffered samples and the stop
flag pending, under a 92-byte budget (only 10 samples fit: partial drain). -/
theorem send_cycle_drain_deferral_witness :
    (get_msg_flag KEY_STOP stopPending20.msgFlags = true
     ∨ get_msg_flag KEY_DISCONNECT stopPending20.msgFlags = true)
    ∧ samplesMax ioSmall < stopPending20.accelBuf.length
    ∧ (∀ m b, Output.sent m b ∈ (send_data ioSmall stopPending20).2 →
        m.resend = none → m.stop = none ∧ m.disconnect = none) := by
  refine ⟨Or.inl (by decide), by decide, ?_⟩
  exact ((send_cycle_drain_deferral stopPending20 ioSmall
    (Or.inl (by decide))).1 (by decide)).1

/-! ## The accounting invariant: preservation through every operation -/

lemma hb_newMsgFlags (io : Transport) (s : FmState) :
    get_msg_flag KEY_HEARTBEAT (newMsgFlags io s) = false := by
  unfold newMsgFlags
  split_ifs
  · exact get_msg_flag_zero _
  · rw [get_msg_flag_land]
    rw [(by decide : get_msg_flag KEY_HEARTBEAT
      ((1 <<< (KEY_STOP - KEY_START)) ||| (1 <<< (KEY_DISCONNECT - KEY_START))) = false)]
    exact Bool.and_false _

lemma sendFresh_counters (io : Transport) (s : FmState) :
    ((sendFresh io s).1.samplesSent = s.samplesSent
      ∧ (sendFresh io s).1.accelBuf = s.accelBuf)
    ∨ ((sendFresh io s).1.samplesSent = s.samplesSent + samplesToSend io s
      ∧ (sendFresh io s).1.accelBuf = s.accelBuf.drop (samplesToSend io s)) := by
  unfold sendFresh
  split_ifs <;> by_cases hk : 0 < samplesToSend io s <;> simp [hk]

lemma inv_sendFresh (io : Transport) (s : FmState) (h : Inv s) :
    Inv (sendFresh io s).1 := by
  have hk := samplesToSend_le io s
  have hm := (sendFresh_frame io s).2.2.2.1
  refine ⟨?_, ?_⟩
  · rcases sendFresh_counters io s with ⟨e1, e2⟩ | ⟨e1, e2⟩ <;> rw [e1, e2, hm]
    · exact h.1
    · rw [List.length_drop]
      have := h.1
      omega
  · rcases sendFresh_msgFlags io s with e | e <;> rw [e]
    · exact h.2
    · exact hb_newMsgFlags io s

lemma inv_send_data (io : Transport) (s : FmState) (h : Inv s) :
    Inv (send_data io s).1 := by
  cases hr : s.resendBuf with
  | nil =>
    simp only [send_data, hr]
    exact inv_sendFresh io s h
  | cons mm rest =>
    simp only [send_data, hr]
    split_ifs with h1 h2
    · exact inv_sendFresh io { s with resendBuf := rest } ⟨h.1, h.2⟩
    · exact inv_sendFresh io s h
    · exact h

lemma inv_stop_recording (io : Transport) (s : FmState) (h : Inv s) :
    Inv (stop_recording io s).1 := by
  unfold stop_recording
  split_ifs with hrec
  · have h1 : Inv { s with msgFlags := clear_msg_flag KEY_START (set_msg_flag KEY_STOP s.msgFlags) } := by
      refine ⟨h.1, ?_⟩
      show get_msg_flag KEY_HEARTBEAT
        (clear_msg_flag KEY_START (set_msg_flag KEY_STOP s.msgFlags)) = false
      rw [get_clear_other KEY_HEARTBEAT KEY_START _ (by decide),
        get_set_other KEY_HEARTBEAT KEY_STOP _ (by decide)]
      exact h.2
    have h2 := inv_send_data io _ h1
    exact ⟨h2.1, h2.2⟩
  · exact h

lemma inv_start_recording (io : Transport) (s : FmState) (h : Inv s) :
    Inv (start_recording io s).1 := by
  unfold start_recording
  split_ifs with hrec
  · exact h
  · have h1 : Inv { s with samplingRate := s.nextSamplingRate,
                           accelBuf := [],
                           samplesSent := 0,
                           samplesMeasured := 0,
                           msgFlags := clear_msg_flag KEY_STOP
                             (set_msg_flag KEY_START s.msgFlags) } := by
      refine ⟨by simp, ?_⟩
      show get_msg_flag KEY_HEARTBEAT
        (clear_msg_flag KEY_STOP (set_msg_flag KEY_START s.msgFlags)) = false
      rw [get_clear_other KEY_HEARTBEAT KEY_STOP _ (by decide),
        get_set_other KEY_HEARTBEAT KEY_START _ (by decide)]
      exact h.2
    have h2 := inv_send_data io _ h1
    exact ⟨h2.1, h2.2⟩

lemma inv_set_connected (b : Bool) (io : Transport) (s : FmState) (h : Inv s) :
    Inv (set_connected b io s).1 := by
  unfold set_connected
  split_ifs with heq hb hwrap
  · exact h
  · exact ⟨h.1, h.2⟩
  · exact ⟨h.1, h.2⟩
  · have h1 := inv_stop_recording io s h
    refine ⟨?_, ?_⟩
    · show (stop_recording io s).1.samplesSent + ([] : List Sample).length
        ≤ (stop_recording io s).1.samplesMeasured
      have := h1.1
      simp only [List.length_nil]
      omega
    · show get_msg_flag KEY_HEARTBEAT (set_msg_flag KEY_DISCONNECT 0) = false
      decide

lemma inv_outbox_failed (m : OutMsg) (reason : FailReason) (io : Transport)
    (s : FmState) (h : Inv s) : Inv (outbox_failed_handler m reason io s).1 := by
  cases hm : m.resend with
  | none =>
    simp only [outbox_failed_handler, hm]
    split_ifs <;>
      first
      | exact ⟨h.1, h.2⟩
      | exact inv_set_connected false io s h
  | some r =>
    simp only [outbox_failed_handler, hm]
    split_ifs <;>
      first
      | exact ⟨h.1, h.2⟩
      | exact inv_set_connected false io s h

lemma inv_inbox (k : InKey) (io : Transport) (s : FmState) (h : Inv s) :
    Inv (inbox_dispatch k io s).1 := by
  cases k with
  | start => exact inv_start_recording io s h
  | stop => exact inv_stop_recording io s h
  | disconnect => exact inv_set_connected false io s h
  | connect v =>
    simp only [inbox_dispatch]
    split_ifs with hv hmis
    · have h1 := inv_set_connected false io s h
      refine ⟨h1.1, ?_⟩
      show get_msg_flag KEY_HEARTBEAT
        (set_msg_flag KEY_CONNECT (set_connected false io s).1.msgFlags) = false
      rw [get_set_other KEY_HEARTBEAT KEY_CONNECT _ (by decide)]
      exact h1.2
    · have h1 := inv_set_connected true io s h
      refine ⟨h1.1, ?_⟩
      show get_msg_flag KEY_HEARTBEAT
        (set_msg_flag KEY_CONNECT (set_connected true io s).1.msgFlags) = false
      rw [get_set_other KEY_HEARTBEAT KEY_CONNECT _ (by decide)]
      exact h1.2
    · exact inv_set_connected true io s h
  | other => exact h

lemma inv_accel (samples : List Sample) (s : FmState) (h : Inv s) :
    Inv (accel_handler samples s).1 := by
  have h1 := h.1
  simp only [accel_handler]
  split_ifs <;>
    refine ⟨?_, h.2⟩ <;>
    try simp only [List.length_append, List.length_take]
  all_goals omega

lemma inv_timer (now : Nat) (io1 io2 : Transport) (s : FmState) (h : Inv s) :
    Inv (data_timer_callback now io1 io2 s).1 := by
  have hp := inv_send_data io1 s h
  by_cases hc : 0 < (send_data io1 s).1.lastMessageTime
      ∧ (send_data io1 s).1.connected = true
      ∧ 8 < now - (send_data io1 s).1.lastMessageTime
  · simp only [data_timer_callback, if_pos hc]
    exact inv_set_connected false io2 _ hp
  · simp only [data_timer_callback, if_neg hc]
    exact hp

lemma inv_bt (b : Bool) (io : Transport) (s : FmState) (h : Inv s) :
    Inv (bluetooth_handler b io s).1 := by
  unfold bluetooth_handler
  split_ifs with hb
  · exact ⟨h.1, h.2⟩
  · have h1 := inv_set_connected false io s h
    exact ⟨h1.1, h1.2⟩

lemma inv_shutdownLoop (n : Nat) (ios : List Transport) (s : FmState)
    (h : Inv s) : Inv (shutdownLoop n ios s).1 := by
  induction n generalizing ios s with
  | zero => exact h
  | succ n ih =>
    simp only [shutdownLoop]
    split_ifs with hf
    · exact ih _ _ (inv_send_data _ s h)
    · exact h

lemma inv_shutdown (ioA ioB : Transport) (ios : List Transport) (s : FmState)
    (h : Inv s) : Inv (shutdown ioA ioB ios s).1 := by
  unfold shutdown
  have h0 : Inv { s with msgFlags := set_msg_flag KEY_DISCONNECT s.msgFlags } := by
    refine ⟨h.1, ?_⟩
    show get_msg_flag KEY_HEARTBEAT (set_msg_flag KEY_DISCONNECT s.msgFlags) = false
    rw [get_set_other KEY_HEARTBEAT KEY_DISCONNECT _ (by decide)]
    exact h.2
  have h3 := inv_shutdownLoop 5 ios _
    (inv_send_data ioB _ (inv_stop_recording ioA _ h0))
  exact ⟨h3.1, h3.2⟩

lemma inv_step (e : Event) (s : FmState) (h : Inv s) : Inv (step e s).1 := by
  cases e with
  | accel samples => exact inv_accel samples s h
  | inbox k now io => exact inv_inbox k io { s with lastMessageTime := now } ⟨h.1, h.2⟩
  | tick now io1 io2 => exact inv_timer now io1 io2 s h
  | outboxFailed m reason io => exact inv_outbox_failed m reason io s h
  | bluetooth b io => exact inv_bt b io s h
  | userStartRecording btUp io =>
    by_cases hb : btUp
    · simp only [step, if_pos hb]
      exact inv_start_recording io s h
    · simp only [step, if_neg hb]
      exact h
  | userStopRecording io => exact inv_stop_recording io s h
  | setSamplingRate r =>
    simp only [step]
    split_ifs <;> exact ⟨h.1, h.2⟩
  | shutdownEv ioA ioB ios => exact inv_shutdown ioA ioB ios s h

/-- Every reachable state satisfies the accounting invariant. -/
lemma reachable_inv (s : FmState) (h : Reachable s) : Inv s := by
  induction h with
  | init av hav => exact ⟨Nat.le_refl 0, get_msg_flag_zero _⟩
  | step e h ih => exact inv_step e _ ih

/-! ## C3: the measured / sent / buffered accounting -/

/-- C3 (amended): in every reachable state the measured counter dominates the
sent counter, and indeed dominates sent plus buffered; the claimed equality
`measured = sent + buffered` does not hold in general (see the
counterexample), because overflow drops and the disconnect cleanup advance
or clear the buffer without adjusting the counters. -/
theorem measured_sent_buffered_accounting (s : FmState) (h : Reachable s) :
    s.samplesSent ≤ s.samplesMeasured
    ∧ s.samplesSent + s.accelBuf.length ≤ s.samplesMeasured := by
  have hi := reachable_inv s h
  exact ⟨by have := hi.1; omega, hi.1⟩

/-- Witness for C3 at the startup state. -/
theorem measured_sent_buffered_accounting_witness :
    (initState 0).samplesSent ≤ (initState 0).samplesMeasured
    ∧ (initState 0).samplesSent + (initState 0).accelBuf.length
        ≤ (initState 0).samplesMeasured :=
  measured_sent_buffered_accounting (initState 0) (Reachable.init 0 (by decide))

/-- Counterexample for C3 as stated: a reachable state (connect, start
recording, three samples delivered, then a received Disconnect) whose buffer
is not full yet whose measured counter differs from sent plus buffered. -/
theorem measured_equality_fails_cx :
    Reachable sBad ∧ sBad.accelBuf.length < ACCEL_BUF_SIZE
    ∧ sBad.samplesMeasured ≠ sBad.samplesSent + sBad.accelBuf.length :=
  ⟨Reachable.step _ (Reachable.step _ (Reachable.step _ (Reachable.step _
      (Reachable.init 0 (by decide))))),
   by decide, by decide⟩

/-! ## C8: the heartbeat pending flag -/

/-- C8 (amended): the engine writes a heartbeat field only when the heartbeat
pending flag is armed, but no operation of the engine ever arms it: in every
reachable state the flag is clear, and hence every fresh dictionary the send
cycle could assemble carries no heartbeat marker. -/
theorem heartbeat_flag_never_armed (s : FmState) (h : Reachable s) :
    get_msg_flag KEY_HEARTBEAT s.msgFlags = false
    ∧ ∀ io : Transport, (buildMsg io s).heartbeat = false := by
  have h2 := (reachable_inv s h).2
  exact ⟨h2, fun io => h2⟩

/-- Witness for C8 at the startup state. -/
theorem heartbeat_flag_never_armed_witness :
    get_msg_flag KEY_HEARTBEAT (initState 0).msgFlags = false
    ∧ ∀ io : Transport, (buildMsg io (initState 0)).heartbeat = false :=
  heartbeat_flag_never_armed (initState 0) (Reachable.init 0 (by decide))

/-- Counterexample for C8 as stated: an idle connected session observed over
twenty consecutive timer ticks never has its heartbeat flag armed, so no
operation of the engine arms it on any recurring schedule. -/
theorem heartbeat_never_armed_on_ticks_cx :
    ((List.range 20).all
      fun n => !(get_msg_flag KEY_HEARTBEAT (tickRun n).msgFlags)) = true := by
  decide

/-! ## C2: the consecutive-delivery-failure bound -/

lemma connectedIdle_val : connectedIdle =
    { recording := false
      connected := true
      connectionId := 2
      accelBuf := []
      resendBuf := []
      samplesSent := 0
      samplesMeasured := 0
      msgFlags := 0
      lastMessageTime := 0
      appVersion := 0
      samplingRate := 50
      nextSamplingRate := 50 } := by
  decide

lemma rewrap_resend_val (m : OutMsg) (r : Nat) (hr : m.resend = some r) :
    (rewrap m).resend = some ((r % 256 + 1) % 256) := by
  simp [rewrap, hr]

lemma rewrap_resend_none (m : OutMsg) (hm : m.resend = none) :
    (rewrap m).resend = some 0 := by
  simp [rewrap, hm]

/-- Queueing of the first delivery failure of a fresh dictionary. -/
lemma first_failure_queues (m : OutMsg) (hm : m.resend = none) :
    (step (Event.outboxFailed m FailReason.other ioT) connectedIdle).1
      = idleWithQueue m := by
  rw [connectedIdle_val]
  simp only [step, outbox_failed_handler, hm]
  simp [idleWithQueue, RESEND_BUF_SIZE]

/-- One failure round while the carried counter is still within the give-up
threshold: the tick pops and re-attempts the entry, the asynchronous failure
re-queues the re-wrapped copy. -/
lemma failCycle_requeue (m : OutMsg) (v : Nat)
    (hv : (rewrap m).resend = some v) (h5 : v % 256 ≤ 5) :
    failCycle (idleWithQueue m) = idleWithQueue (rewrap m) := by
  have h5' : ¬ 5 < v % 256 := by omega
  simp only [failCycle, step, data_timer_callback, idleWithQueue, send_data,
    sendFresh, ioT, firstSent, outbox_failed_handler, hv, h5']
  simp [RESEND_BUF_SIZE]

/-- One failure round once the carried counter exceeds the threshold: the
failure handler gives up and forces a disconnect. -/
lemma failCycle_giveup (m : OutMsg) (v : Nat)
    (hv : (rewrap m).resend = some v) (h5 : 5 < v % 256) :
    (failCycle (idleWithQueue m)).connected = false := by
  simp only [failCycle, step, data_timer_callback, idleWithQueue, send_data,
    sendFresh, ioT, firstSent, outbox_failed_handler, hv, h5]
  simp [set_connected, stop_recording]

/-- C2 (amended): a fresh dictionary that fails delivery is queued by its
first failure carrying no retry counter; its resent copies carry counters
0, 1, 2, ...; a failure whose counter exceeds 5 forces a disconnect instead
of a further retry, so forced disconnection is triggered on or before the
8th consecutive delivery failure — after the first failure, seven more
failure rounds leave the session disconnected. -/
theorem retry_exhaustion_disconnects_by_eighth_failure (m : OutMsg)
    (hm : m.resend = none) :
    (step (Event.outboxFailed m FailReason.other ioT) connectedIdle).1
      = idleWithQueue m
    ∧ (failCycle (failCycle (failCycle (failCycle (failCycle (failCycle
        (failCycle (idleWithQueue m)))))))).connected = false := by
  have hv0 : (rewrap m).resend = some 0 := rewrap_resend_none m hm
  have hv1 : (rewrap (rewrap m)).resend = some 1 := by
    rw [rewrap_resend_val _ 0 hv0]
  have hv2 : (rewrap (rewrap (rewrap m))).resend = some 2 := by
    rw [rewrap_resend_val _ 1 hv1]
  have hv3 : (rewrap (rewrap (rewrap (rewrap m)))).resend = some 3 := by
    rw [rewrap_resend_val _ 2 hv2]
  have hv4 : (rewrap (rewrap (rewrap (rewrap (rewrap m))))).resend = some 4 := by
    rw [rewrap_resend_val _ 3 hv3]
  have hv5 : (rewrap (rewrap (rewrap (rewrap (rewrap (rewrap m)))))).resend
      = some 5 := by
    rw [rewrap_resend_val _ 4 hv4]
  have hv6 : (rewrap (rewrap (rewrap (rewrap (rewrap (rewrap (rewrap m))))))).resend
      = some 6 := by
    rw [rewrap_resend_val _ 5 hv5]
  refine ⟨first_failure_queues m hm, ?_⟩
  rw [failCycle_requeue m 0 hv0 (by omega),
    failCycle_requeue _ 1 hv1 (by omega),
    failCycle_requeue _ 2 hv2 (by omega),
    failCycle_requeue _ 3 hv3 (by omega),
    failCycle_requeue _ 4 hv4 (by omega),
    failCycle_requeue _ 5 hv5 (by omega)]
  exact failCycle_giveup _ 6 hv6 (by omega)

/-- Witness for C2 (amended) at the empty dictionary. -/
theorem retry_exhaustion_disconnects_by_eighth_failure_witness :
    (({} : OutMsg).resend = none)
    ∧ ((step (Event.outboxFailed ({} : OutMsg) FailReason.other ioT) connectedIdle).1
        = idleWithQueue {}
      ∧ (failCycle (failCycle (failCycle (failCycle (failCycle (failCycle
          (failCycle (idleWithQueue ({} : OutMsg))))))))).connected = false) :=
  ⟨rfl, retry_exhaustion_disconnects_by_eighth_failure {} rfl⟩

/-- Counterexample for C2 as stated: a concrete fresh dictionary failing six
consecutive times (the first failure plus five resend rounds) leaves the
session still connected, so forced disconnection is not triggered on or
before the 6th failure. -/
theorem sixth_failure_does_not_disconnect_cx :
    connectedIdle.connected = true
    ∧ (step (Event.outboxFailed ({} : OutMsg) FailReason.other ioT) connectedIdle).1
        = idleWithQueue {}
    ∧ (failCycle (failCycle (failCycle (failCycle (failCycle
        (idleWithQueue ({} : OutMsg))))))).connected = true := by
  decide

/-! ## C4: the two phases of the send cycle -/

/-- C4 (amended): a send cycle entered with a non-empty resend queue attempts
the re-wrapped most recent entry first, and when the transport refuses the
second outbox transaction — as the platform does while a send is in flight —
that resend is the only dictionary handed to the transport that tick.  The
fresh-send assembly itself is guarded only by pending data and the second
outbox begin, not by the resend queue (see the counterexample). -/
theorem resend_phase_first (s : FmState) (io : Transport) (m : OutMsg)
    (rest : List OutMsg) (hq : s.resendBuf = m :: rest)
    (h1 : io.begin1 = true) (h2 : io.begin2 = false) :
    (send_data io s).2 = [Output.sent (rewrap m) io.send1] := by
  simp only [send_data, hq]
  rw [if_pos h1]
  cases hs : io.send1 <;> simp [hs, sendFresh, h2]

/-- Witness for C4 (amended) at a concrete queued state. -/
theorem resend_phase_first_witness :
    sResendPending.resendBuf = [({} : OutMsg)]
    ∧ ({ ioT with begin2 := false } : Transport).begin1 = true
    ∧ ({ ioT with begin2 := false } : Transport).begin2 = false
    ∧ (send_data { ioT with begin2 := false } sResendPending).2
        = [Output.sent (rewrap {}) ({ ioT with begin2 := false } : Transport).send1] :=
  ⟨by decide, rfl, rfl,
    resend_phase_first sResendPending { ioT with begin2 := false } {} []
      (by decide) rfl rfl⟩

/-- Counterexample for C4 as stated: with a permissive transport, a tick
entered with a non-empty resend queue hands the transport two dictionaries —
the resend and a freshly assembled message — so the fresh-send phase is not
suppressed by a non-empty resend queue. -/
theorem resend_exclusivity_fails_cx :
    sResendPending.resendBuf ≠ []
    ∧ (send_data ioAll sResendPending).2.length = 2 := by
  decide

end FocusMotion
